import Mathlib

/-!
# FinRobot-CoT: verification of the observability / orchestration core

Shallow embedding of the event-sourced observability framework and the
orchestration pipeline of the FinRobot-CoT repository:

* `src/event_logger.py` — structured event emitter and the
  `pipeline_run` / `agent_run` context managers;
* `src/agents/us_data_agent.py` — `call_with_rate_limit_handling`,
  `DataCoTAgentUS.run` (Stage Executor / Tool Runner);
* `src/agents/concept_agent.py` — `ConceptCoTAgent.run`;
* `src/agents/thesis_agent.py` — `ThesisCoTAgent.run`;
* `src/agents/expert_investor.py` — `ExpertInvestor.run` (Orchestrator);
* `src/agents/expert_investor_shadow.py` — `ExpertInvestorShadow.run`;
* `src/agents/agent_pipeline.py` — `CoTPipeline.run`;
* `src/llm_evaluation.py` — the pure classification helpers.

Modelling conventions:

* Wall-clock time (`time.time()`, latencies) is abstracted away: events
  carry their identifying payload but not timestamps/latencies.
* External collaborators (HTTP tools, the LLM judge, the PDF compiler)
  are parameters of the embedding, as in the source where they are
  injected or imported opaquely.
* Exceptions are modelled with `Except Err`.  A crucial point of
  fidelity: `src/event_logger.py` defines *no* function named
  `log_hallucination_metric` and none named `log_hallucination`, yet
  `us_data_agent.py` / `concept_agent.py` / `thesis_agent.py` call them;
  in Python such a call raises `AttributeError` (for the
  `import event_logger; event_logger.f(...)` style) or the module fails
  to import at all (for `from event_logger import log_hallucination_metric`
  in `concept_agent.py`).  The embedding models each such call site as
  raising.
* Scores written by `log_evaluation_metric` are only ever the literals
  `0.0` and `1.0` in the modelled code, so they are embedded as `Rat`.
-/

namespace FinRobot

/-- Kinds of structured events emitted by `event_logger.py`.  Payload
fields that no claim observes (timestamps, latencies, full input dicts)
are abstracted; the identifying fields are kept. -/
inductive Event where
  | pipeline_start (run_id query : String)
  | pipeline_end (run_id : String)
  | pipeline_error (run_id error : String)
  | agent_start (run_id agent_id agent_name : String)
  | agent_end (run_id agent_id agent_name : String)
  | agent_error (run_id agent_id agent_name error : String)
  | tool_call (run_id agent_name tool_name : String)
  | tool_result (run_id agent_name tool_name tool_output : String) (success : Bool)
  | llm_metrics (run_id agent_name model_name : String)
  | evaluation_metric (run_id metric_name : String) (score : Rat)
      (reasoning : String) (detail : Nat)
  deriving DecidableEq, Repr

/-- Python exceptions relevant to the embedded code. -/
inductive Err where
  /-- `AttributeError`: attribute lookup on module `event_logger` failed
  (the module defines no such function). -/
  | attributeError (attr : String)
  /-- A domain exception raised by an external tool / build step. -/
  | raised (msg : String)
  deriving DecidableEq, Repr

/-- `str(e)` for the modelled exceptions. -/
def Err.pyMsg : Err → String
  | .attributeError a => "module 'event_logger' has no attribute '" ++ a ++ "'"
  | .raised m => m

/-! ## `call_with_rate_limit_handling` (src/agents/us_data_agent.py, lines 12-21)

The wrapped API call is modelled by the stream of its responses
(`f k` = response of the `k`-th invocation).  The only property of a
response the source inspects is whether it is a dict whose `"status"`
field equals `429`; anything else is returned as-is. -/

/-- A response of the wrapped API call: either a rate-limit dict
(`{"status": 429}`-like) or any other value (tagged opaquely). -/
inductive ApiResp where
  | dict429
  | value (tag : String)
  deriving DecidableEq, Repr

/-- What `call_with_rate_limit_handling` returns: the response of the
first non-rate-limited invocation, or the terminal
`{"error": "Max retries exceeded due to rate limiting."}` dict. -/
inductive RLResult where
  | resp (r : ApiResp)
  | maxRetriesExceeded
  deriving DecidableEq, Repr

/-- Instrumented run of `call_with_rate_limit_handling`: its returned
value, the durations passed to `time.sleep`, in order, and the number of
invocations of the wrapped call. -/
structure RLTrace where
  result : RLResult
  sleeps : List Nat
  calls : Nat
  deriving DecidableEq, Repr

/-- One iteration step of the `for attempt in range(max_retries)` loop
of `call_with_rate_limit_handling`: `attempt` is the current loop index,
`remaining` the number of iterations left. -/
def rlGo (f : Nat → ApiResp) (backoff_factor attempt remaining : Nat) : RLTrace :=
  match remaining with
  | 0 => ⟨.maxRetriesExceeded, [], 0⟩
  | r + 1 =>
    match f attempt with
    | .dict429 =>
      let rest := rlGo f backoff_factor (attempt + 1) r
      ⟨rest.result, backoff_factor ^ attempt :: rest.sleeps, rest.calls + 1⟩
    | resp => ⟨.resp resp, [], 1⟩

/-- `call_with_rate_limit_handling(api_call_fn, max_retries, backoff_factor)`
(defaults in the source: `max_retries=3`, `backoff_factor=2`). -/
def call_with_rate_limit_handling (f : Nat → ApiResp)
    (max_retries backoff_factor : Nat) : RLTrace :=
  rlGo f backoff_factor 0 max_retries

/-! ## Pure string helpers and `llm_evaluation.py` classifiers -/

/-- Boolean infix test on character lists (Python `needle in haystack`). -/
def listIsInfix (needle : List Char) : List Char → Bool
  | [] => needle.isEmpty
  | c :: t => needle.isPrefixOf (c :: t) || listIsInfix needle t

/-- Python `needle in haystack` on strings. -/
def strContains (haystack needle : String) : Bool :=
  listIsInfix needle.toList haystack.toList

/-- Python `str.lower()` (ASCII suffices for the literals involved);
implemented on the character list so that it computes by reduction. -/
def strLower (s : String) : String := String.mk (s.toList.map Char.toLower)

/-- Helper for `pyReplace`: replace every occurrence of `pat` (nonempty
in all uses) by `repl`, with list-length fuel for structural recursion. -/
def replaceAllAux (pat repl : List Char) : Nat → List Char → List Char
  | _, [] => []
  | 0, l => l
  | fuel + 1, c :: t =>
    if pat ≠ [] ∧ pat.isPrefixOf (c :: t) then
      repl ++ replaceAllAux pat repl fuel ((c :: t).drop pat.length)
    else c :: replaceAllAux pat repl fuel t

/-- Python `s.replace(pat, repl)` (all occurrences). -/
def pyReplace (s pat repl : String) : String :=
  String.mk (replaceAllAux pat.toList repl.toList s.toList.length s.toList)

/-- Python `str.strip()`. -/
def pyStrip (s : String) : String :=
  String.mk (((s.toList.dropWhile Char.isWhitespace).reverse.dropWhile
    Char.isWhitespace).reverse)

/-- Python `sep.join(parts)`. -/
def joinWith (sep : String) : List String → String
  | [] => ""
  | [x] => x
  | x :: y :: t => x ++ sep ++ joinWith sep (y :: t)

/-- `llm_evaluation.classify_hallucination_type` (pure source code). -/
def classify_hallucination_type (filename tool_name failure_type : String) : String :=
  if strContains (strLower failure_type) "missing" then "missing_output"
  else if strContains (strLower failure_type) "timeout" then "api_timeout"
  else if strContains (strLower failure_type) "short" then "undergenerated"
  else if strContains failure_type "tool_crash" then "tool_exception"
  else "unknown"

/-- `llm_evaluation.llm_should_retry` (pure source code; despite the name,
no LLM is involved). -/
def llm_should_retry (tool_name failure_reason : String) : String :=
  if ["timeout", "rate limit", "empty"].any
      (fun term => strContains (strLower failure_reason) term) then "retry"
  else if strContains (strLower failure_reason) "irrelevant" then "switch"
  else "no_action"

/-- `llm_evaluation.generate_placeholder_summary` (pure source code). -/
def generate_placeholder_summary (filename company : String) : String :=
  "[AUTO] Placeholder summary for " ++ company ++ " - Source: " ++ filename ++
    ". This was auto-generated due to missing data or tool failure."

/-! ## File-system and pipeline state -/

/-- The working directory, as a map from path to file size in bytes
(a path absent from the list = the file does not exist). -/
abbrev FS := List (String × Nat)

/-- `os.path.getsize` / `os.path.exists` support: size of the file at
`p`, if it exists. -/
def fsGet : FS → String → Option Nat
  | [], _ => none
  | (q, m) :: t, p => if q = p then some m else fsGet t p

/-- Writing a file: replaces the entry at `p` or creates it. -/
def fsSet : FS → String → Nat → FS
  | [], p, n => [(p, n)]
  | (q, m) :: t, p, n => if q = p then (p, n) :: t else (q, m) :: fsSet t p n

/-- `os.path.join(work_dir, fname)` for the simple relative names used here. -/
def pathJoin (work_dir fname : String) : String := work_dir ++ "/" ++ fname

/-- `os.path.exists(p) and os.path.getsize(p) > threshold`. -/
def validSize (fs : FS) (p : String) (threshold : Nat) : Bool :=
  match fsGet fs p with
  | some sz => threshold < sz
  | none => false

/-- Observable state threaded through a run: the structured event log,
the working-directory contents, and the `time.sleep` durations. -/
structure PState where
  log : List Event
  fs : FS
  sleeps : List Nat
  deriving DecidableEq, Repr

/-! ## Missing `event_logger` functions

`event_logger.py` defines `log_pipeline_*`, `log_agent_*`, `log_tool_*`,
`log_llm_metrics` and `log_evaluation_metric` — and nothing else.  The
agents additionally call `event_logger.log_hallucination_metric` and
`event_logger.log_hallucination`, which do not exist; in Python each such
call raises `AttributeError` at the attribute lookup
(`concept_agent.py` even does `from event_logger import
log_hallucination_metric`, which fails at import for the same reason).
The embedding models each such call site as raising. -/

/-- The (always-raising) call `event_logger.log_hallucination_metric(...)`. -/
def log_hallucination_metric : Except Err Unit :=
  .error (.attributeError "log_hallucination_metric")

/-- The (always-raising) call `event_logger.log_hallucination(...)`. -/
def log_hallucination : Except Err Unit :=
  .error (.attributeError "log_hallucination")

/-! ## `DataCoTAgentUS.run` (src/agents/us_data_agent.py, lines 57-168) -/

/-- Output kind of a manifest entry (`"txt"` / `"img"` in the source). -/
inductive OutKind where
  | txt
  | img
  deriving DecidableEq, Repr

/-- Behaviour of one invocation of an external tool: raise, return a
rate-limit dict (`{"status": 429}`), or return normally, optionally
(re)writing the target file with the given size in bytes. -/
inductive ToolEff where
  | raises (msg : String)
  | rl
  | ret (write : Option Nat)

/-- One entry of the `outputs` manifest of `DataCoTAgentUS.run`.
`toolBeh k` is the behaviour of the `k`-th invocation of this entry's
tool during the processing of this entry. -/
structure OutputSpec where
  name : String
  toolName : String
  toolBeh : Nat → ToolEff
  output_file : String
  kind : OutKind

/-- Per-tool stats row appended to `tool_stats` (latency abstracted). -/
structure ToolStat where
  tool : String
  file : String
  valid : Bool
  deriving DecidableEq, Repr

/-- The loop accumulators of `DataCoTAgentUS.run`. -/
structure LoopAcc where
  validated_files : List String
  failed_calls : List String
  hallucinations : List String
  tool_stats : List ToolStat
  generated_files_registry : List String
  deriving DecidableEq, Repr

/-- The stage's use of `call_with_rate_limit_handling` on the closure
`lambda: tool_call(ticker, report_date, fpath)`: same loop as the pure
`call_with_rate_limit_handling` above, with the tool's file-system
effects and exceptions made explicit.  Returns the next free invocation
index of the entry's tool on normal completion (also when the loop is
exhausted and the error dict is returned). -/
def rlToolCall (beh : Nat → ToolEff) (fpath : String) (backoff_factor : Nat) :
    Nat → Nat → PState → Except Err Nat × PState
  | attempt, 0, st => (.ok attempt, st)
  | attempt, r + 1, st =>
    match beh attempt with
    | .raises msg => (.error (.raised msg), st)
    | .rl => rlToolCall beh fpath backoff_factor (attempt + 1) r
        { st with sleeps := st.sleeps ++ [backoff_factor ^ attempt] }
    | .ret w =>
      (.ok (attempt + 1),
        match w with
        | some n => { st with fs := fsSet st.fs fpath n }
        | none => st)

/-- The `except Exception as e` handler of the per-tool boundary
(us_data_agent.py, lines 141-148).  Its own final
`event_logger.log_hallucination_metric(...)` call raises
`AttributeError`, which escapes the handler. -/
def toolExceptHandler (runId agent_name tool_name fname : String)
    (e : Err) (acc : LoopAcc) (st : PState) : Except Err LoopAcc × PState :=
  let acc := { acc with failed_calls := acc.failed_calls ++ [fname] }
  let _halluc_type := classify_hallucination_type fname tool_name "tool_crash"
  let acc := { acc with hallucinations := acc.hallucinations ++ [e.pyMsg] }
  let st := { st with
    log := st.log ++ [.tool_result runId agent_name tool_name e.pyMsg false] }
  match log_hallucination_metric with
  | .error err => (.error err, st)
  | .ok _ => (.ok acc, st)

/-- Processing of one manifest entry (the body of the
`for output in outputs` loop, us_data_agent.py lines 93-151). -/
def processEntry (runId agent_name ticker fyear report_date work_dir : String)
    (e : OutputSpec) (acc : LoopAcc) (st : PState) : Except Err LoopAcc × PState :=
  let fname := e.output_file
  let fpath := pathJoin work_dir fname
  let tool_name := e.toolName
  if fpath ∈ acc.generated_files_registry then
    -- duplicate-output guard (lines 100-105); the fault event call raises
    let reason := "File written multiple times: " ++ fpath
    let acc := { acc with hallucinations := acc.hallucinations ++ [reason] }
    match log_hallucination_metric with
    | .error err => (.error err, st)
    | .ok _ => (.ok acc, st)
  else
    let acc := { acc with
      generated_files_registry := acc.generated_files_registry ++ [fpath] }
    let st := { st with
      log := st.log ++ [.tool_call runId agent_name tool_name] }
    match rlToolCall e.toolBeh fpath 2 0 3 st with
    | (.error ex, st') => toolExceptHandler runId agent_name tool_name fname ex acc st'
    | (.ok k, st') =>
      match e.kind with
      | .txt =>
        if validSize st'.fs fpath 3 then
          let acc := { acc with validated_files := acc.validated_files ++ [fpath] }
          let st' := { st' with
            log := st'.log ++ [.tool_result runId agent_name tool_name fpath true] }
          (.ok { acc with tool_stats := acc.tool_stats ++ [⟨tool_name, fpath, true⟩] }, st')
        else
          -- lines 120-130, still inside the per-tool `try`
          let decision := llm_should_retry tool_name ("Empty or missing file: " ++ fpath)
          let retried : Except Err PState :=
            if decision = "retry" then
              -- direct re-invocation `tool_call(ticker, fyear, fpath)`
              match e.toolBeh k with
              | .raises msg => .error (.raised msg)
              | .rl => .ok st'
              | .ret w =>
                .ok (match w with
                  | some n => { st' with fs := fsSet st'.fs fpath n }
                  | none => st')
            else if decision = "switch" then
              let content := generate_placeholder_summary e.name ticker
              .ok { st' with fs := fsSet st'.fs fpath content.length }
            else .ok st'
          match retried with
          | .error ex => toolExceptHandler runId agent_name tool_name fname ex acc st'
          | .ok st'' =>
            let acc := { acc with failed_calls := acc.failed_calls ++ [fname] }
            let htype := classify_hallucination_type fname tool_name "invalid_text_output"
            let acc := { acc with
              hallucinations := acc.hallucinations ++ [tool_name ++ " failed: " ++ htype] }
            match log_hallucination_metric with
            | .error ex => toolExceptHandler runId agent_name tool_name fname ex acc st''
            | .ok _ =>
              let st'' := { st'' with
                log := st''.log ++ [.tool_result runId agent_name tool_name fpath false] }
              (.ok { acc with tool_stats := acc.tool_stats ++ [⟨tool_name, fpath, false⟩] }, st'')
      | .img =>
        if validSize st'.fs fpath (10 * 1024) then
          let acc := { acc with validated_files := acc.validated_files ++ [fpath] }
          let st' := { st' with
            log := st'.log ++ [.tool_result runId agent_name tool_name fpath true] }
          (.ok { acc with tool_stats := acc.tool_stats ++ [⟨tool_name, fpath, true⟩] }, st')
        else
          let acc := { acc with failed_calls := acc.failed_calls ++ [fname] }
          let htype := classify_hallucination_type fname tool_name "invalid_image"
          let acc := { acc with
            hallucinations := acc.hallucinations ++ [tool_name ++ " failed: " ++ htype] }
          match log_hallucination_metric with
          | .error ex => toolExceptHandler runId agent_name tool_name fname ex acc st'
          | .ok _ =>
            let st' := { st' with
              log := st'.log ++ [.tool_result runId agent_name tool_name fpath false] }
            (.ok { acc with tool_stats := acc.tool_stats ++ [⟨tool_name, fpath, false⟩] }, st')

/-- The manifest loop of `DataCoTAgentUS.run`. -/
def dataLoop (runId agent_name ticker fyear report_date work_dir : String) :
    List OutputSpec → LoopAcc → PState → Except Err LoopAcc × PState
  | [], acc, st => (.ok acc, st)
  | e :: rest, acc, st =>
    match processEntry runId agent_name ticker fyear report_date work_dir e acc st with
    | (.error ex, st') => (.error ex, st')
    | (.ok acc', st') =>
      dataLoop runId agent_name ticker fyear report_date work_dir rest acc' st'

/-- The `agent_output` dict returned by `DataCoTAgentUS.run`
(us_data_agent.py lines 160-166). -/
structure DataOutput where
  validated_files : List String
  failed_files : List String
  hallucinations : List String
  tool_stats : List ToolStat
  status : String
  deriving DecidableEq, Repr

/-- The stage input mapping: `input_data.get(key, default)` is modelled
with optional fields and the source's defaults. -/
structure DInput where
  ticker_symbol : Option String
  fyear : Option String
  work_dir : Option String
  deriving DecidableEq, Repr

/-- `DataCoTAgentUS.run` (us_data_agent.py lines 57-168), generic over
the `outputs` manifest and the judge collaborator.  `agent_name` is
`self.name`; `agentId` abstracts the timestamp-derived agent id. -/
def dataRun (input : DInput) (runId agentId agent_name : String)
    (outputs : List OutputSpec) (judge : List String → String → String)
    (st : PState) : Except Err DataOutput × PState :=
  let st := { st with log := st.log ++ [.agent_start runId agentId agent_name] }
  let ticker := input.ticker_symbol.getD "UNKNOWN"
  let fyear := input.fyear.getD "2024"
  let work_dir := input.work_dir.getD "./report"
  -- os.makedirs(work_dir, exist_ok=True): directory creation not modelled
  let report_date := fyear ++ "-12-31"
  match (dataLoop runId agent_name ticker fyear report_date work_dir outputs
      (LoopAcc.mk [] [] [] [] []) st : Except Err LoopAcc × PState) with
  | (.error ex, st') => (.error ex, st')
  | (.ok acc, st') =>
    let st' : PState := { st' with log := st'.log ++ [.llm_metrics runId agent_name "N/A"] }
    let reasoning := if acc.hallucinations.isEmpty then "All tools succeeded."
      else judge acc.hallucinations "tool_failures"
    let score : Rat := if acc.hallucinations.isEmpty then 1 else 0
    let st' : PState := { st' with log := st'.log ++
      [.evaluation_metric runId "Tool Failure Analysis" score reasoning 0] }
    let out : DataOutput :=
      ⟨acc.validated_files, acc.failed_calls, acc.hallucinations, acc.tool_stats,
        if acc.validated_files.length = outputs.length then "TERMINATE" else "FAILED"⟩
    let st' : PState := { st' with log := st'.log ++ [.agent_end runId agentId agent_name] }
    (.ok out, st')

/-- The concrete nine-entry `outputs` manifest of `DataCoTAgentUS.run`
(us_data_agent.py lines 75-85), over an assignment of behaviours to the
registry tool names. -/
def usOutputs (beh : String → Nat → ToolEff) : List OutputSpec :=
  [⟨"Income Statement", "analyze_income_stmt", beh "analyze_income_stmt",
      "01_income_statement.txt", .txt⟩,
   ⟨"Balance Sheet", "analyze_balance_sheet", beh "analyze_balance_sheet",
      "02_balance_sheet.txt", .txt⟩,
   ⟨"Cash Flow", "analyze_cash_flow", beh "analyze_cash_flow",
      "03_cash_flow.txt", .txt⟩,
   ⟨"Risk Analysis", "analyze_segment_stmt", beh "analyze_segment_stmt",
      "04_risk_analysis.txt", .txt⟩,
   ⟨"Competitor Analysis", "get_competitors_analysis", beh "get_competitors_analysis",
      "05_competitor_analysis.txt", .txt⟩,
   ⟨"Business Highlights", "analyze_business_highlights", beh "analyze_business_highlights",
      "06_business_highlights.txt", .txt⟩,
   ⟨"Company Description", "analyze_company_description", beh "analyze_company_description",
      "07_company_description.txt", .txt⟩,
   ⟨"PE/EPS Chart", "get_pe_eps_performance", beh "get_pe_eps_performance",
      "pe_eps_performance.png", .img⟩,
   ⟨"Share Price Chart", "get_share_performance", beh "get_share_performance",
      "share_price_performance.png", .img⟩]

/-! ## `ConceptCoTAgent.run` (src/agents/concept_agent.py) -/

/-- `llm_evaluation.match_file_to_concept`, with the LLM choice
abstracted as `llmPick`; the source returns the chosen filename only if
it occurs in `file_list`, and `None` on mismatch or exception. -/
def match_file_to_concept (llmPick : String → List String → Option String)
    (section_name : String) (file_list : List String) : Option String :=
  match llmPick section_name file_list with
  | some filename => if filename ∈ file_list then some filename else none
  | none => none

/-- Helper for `pySplit`: words of a character list (whitespace runs
separate words; empties dropped), with a reversed current-word buffer. -/
def wordsAux : List Char → List Char → List (List Char)
  | [], cur => if cur.isEmpty then [] else [cur.reverse]
  | c :: t, cur =>
    if c.isWhitespace then
      (if cur.isEmpty then wordsAux t [] else cur.reverse :: wordsAux t [])
    else wordsAux t (c :: cur)

/-- Python `str.split()` (whitespace split, empties dropped). -/
def pySplit (s : String) : List String :=
  (wordsAux s.toList []).map String.mk

/-- `TextUtils.check_text_length(text, min_words=140)` (concept_agent.py). -/
def check_text_length (text : String) : Bool :=
  140 ≤ (pySplit text).length

/-- The inner `match_file` helper of `ConceptCoTAgent.run` (lines 56-61):
first filename containing the lowered requirement name (minus `.txt`),
else the LLM fallback, joined onto `work_dir`. -/
def conceptMatchFile (work_dir : String) (files : List String)
    (llmPick : String → List String → Option String) (req_name : String) :
    Option String :=
  match files.find?
      (fun f => strContains (strLower f) (strLower (pyReplace req_name ".txt" ""))) with
  | some f => some (pathJoin work_dir f)
  | none =>
    match match_file_to_concept llmPick req_name files with
    | some m => some (pathJoin work_dir m)
    | none => none

/-- The `OUTPUTS` class constant of `ConceptCoTAgent`. -/
def conceptOUTPUTS : List (String × List String) :=
  [("01_company_overview.txt",
      ["07_company_description.txt", "06_business_highlights.txt"]),
   ("02_key_financials.txt",
      ["02_balance_sheet.txt", "01_income_statement.txt", "03_cash_flow.txt"]),
   ("03_valuation.txt",
      ["01_income_statement.txt", "02_balance_sheet.txt"]),
   ("04_risks.txt",
      ["04_risk_analysis.txt"]),
   ("05_sell_side_summary.txt",
      ["07_company_description.txt", "06_business_highlights.txt",
       "02_balance_sheet.txt", "01_income_statement.txt", "03_cash_flow.txt",
       "04_risk_analysis.txt", "05_competitor_analysis.txt"]),
   ("06_competitor_comparison.txt",
      ["05_competitor_analysis.txt", "02_balance_sheet.txt", "01_income_statement.txt"])]

/-- Environment of `ConceptCoTAgent.run`: the directory listing, the
file contents (`read_file_content` returns `None` on any read error),
the LLM file-matching collaborator, and whether `save_to_file` succeeds
for a given path. -/
structure ConceptEnv where
  files : List String
  contents : String → Option String
  llmPick : String → List String → Option String
  saveOk : String → Bool

/-- The `for req in req_files` loop of `ConceptCoTAgent.run`
(lines 70-89).  Accumulates `content_chunks`, the per-output `missing`
flag and `hallucinations`.  The two fault branches call
`log_hallucination_metric`, which does not exist in `event_logger.py`
and therefore raises. -/
def conceptReqLoop (runId agent_name work_dir : String) (env : ConceptEnv) :
    List String → List String → Bool → List String → PState →
    Except Err (List String × Bool × List String) × PState
  | [], chunks, missing, halls, st => (.ok (chunks, missing, halls), st)
  | req :: rest, chunks, missing, halls, st =>
    let fpath? := conceptMatchFile work_dir env.files env.llmPick req
    let st : PState := { st with
      log := st.log ++ [.tool_call runId agent_name "match_file"] }
    match fpath? with
    | some fpath =>
      let st : PState := { st with
        log := st.log ++ [.tool_call runId agent_name "read_file_content"] }
      let data := env.contents fpath
      let valid_length := (data.map check_text_length).getD false
      let st : PState := { st with
        log := st.log ++ [.tool_result runId agent_name "read_file_content" fpath true] }
      match data with
      | some d =>
        if check_text_length d then
          conceptReqLoop runId agent_name work_dir env rest
            (chunks ++ [pyStrip d]) missing halls st
        else
          let _htype := classify_hallucination_type req agent_name "low_content_density"
          let halls := halls ++ ["Too short or missing content for: " ++ req]
          match log_hallucination_metric with
          | .error e => (.error e, st)
          | .ok _ =>
            let _ := valid_length
            conceptReqLoop runId agent_name work_dir env rest chunks true halls st
      | none =>
        let _htype := classify_hallucination_type req agent_name "low_content_density"
        let halls := halls ++ ["Too short or missing content for: " ++ req]
        match log_hallucination_metric with
        | .error e => (.error e, st)
        | .ok _ => conceptReqLoop runId agent_name work_dir env rest chunks true halls st
    | none =>
      let _htype := classify_hallucination_type req agent_name "unmatched_file"
      let halls := halls ++ ["Missing source file for: " ++ req]
      match log_hallucination_metric with
      | .error e => (.error e, st)
      | .ok _ => conceptReqLoop runId agent_name work_dir env rest chunks true halls st

/-- The `for output_name, req_files in self.OUTPUTS` loop (lines 67-109).
Accumulates the `results` key list, `summary_stats` counters and
`hallucinations`. -/
def conceptOutLoop (runId agent_name work_dir : String) (env : ConceptEnv) :
    List (String × List String) → List String → Nat → Nat → List String → PState →
    Except Err (List String × Nat × Nat × List String) × PState
  | [], results, missingCt, genCt, halls, st => (.ok (results, missingCt, genCt, halls), st)
  | (output_name, req_files) :: rest, results, missingCt, genCt, halls, st =>
    match conceptReqLoop runId agent_name work_dir env req_files [] false halls st with
    | (.error e, st') => (.error e, st')
    | (.ok (chunks, missing, halls'), st') =>
      let smg : String × Nat × Nat :=
        if missing || chunks.isEmpty then ("Data Not Available", missingCt + 1, genCt)
        else
          let text := joinWith "\n\n" chunks
          let words := pySplit text
          let summary := if 150 < words.length
            then joinWith " " (words.take 150) else text
          (summary, missingCt, genCt + 1)
      let summary := smg.1
      let missingCt' := smg.2.1
      let genCt' := smg.2.2
      let out_path := pathJoin work_dir output_name
      let hs : List String × PState :=
        if env.saveOk out_path then
          (halls',
            { st' with
              fs := fsSet st'.fs out_path summary.length,
              log := st'.log ++
                [.tool_result runId agent_name "save_to_file" out_path true,
                 .tool_result runId agent_name "summary_word_count" out_path true] })
        else
          (halls' ++ ["Failed to save: " ++ out_path],
            { st' with log := st'.log ++
              [.tool_result runId agent_name "save_to_file" out_path false] })
      conceptOutLoop runId agent_name work_dir env rest
        (results ++ [output_name]) missingCt' genCt' hs.1 hs.2

/-- The `final_output` dict of `ConceptCoTAgent.run` (lines 114-119);
`summary_stats` is flattened into its two counters. -/
structure ConceptOutput where
  status : String
  outputs : List String
  summary_missing : Nat
  summary_generated : Nat
  hallucinations : List String
  deriving DecidableEq, Repr

/-- `ConceptCoTAgent.run` (concept_agent.py lines 44-125).  The outer
`try`/`except` logs `agent_error` and re-raises. -/
def conceptRun (work_dir? runId? : Option String) (agent_name : String)
    (env : ConceptEnv) (judge : List String → String → String) (st : PState) :
    Except Err ConceptOutput × PState :=
  let work_dir := work_dir?.getD "./report"
  let run_id := runId?.getD "no_run_id"
  let agent_id := agent_name ++ "-" ++ run_id
  let st : PState := { st with
    log := st.log ++ [.agent_start run_id agent_id agent_name] }
  let inner : Except Err ConceptOutput × PState :=
    let st : PState := { st with
      log := st.log ++ [.tool_call run_id agent_name "list_available_files"] }
    let st : PState := { st with
      log := st.log ++ [.tool_result run_id agent_name "list_available_files" "" true] }
    match conceptOutLoop run_id agent_name work_dir env conceptOUTPUTS [] 0 0 [] st with
    | (.error e, st') => (.error e, st')
    | (.ok (results, missingCt, genCt, halls), st') =>
      let reasoning := if halls.isEmpty then "All summaries constructed successfully."
        else judge halls "summary construction"
      let score : Rat := if halls.isEmpty then 1 else 0
      let st' : PState := { st' with log := st'.log ++
        [.evaluation_metric run_id "Summary Construction Faithfulness" score reasoning 0] }
      let final : ConceptOutput :=
        ⟨if missingCt = 0 then "TERMINATE" else "FAILED", results, missingCt, genCt, halls⟩
      let st' : PState := { st' with
        log := st'.log ++ [.agent_end run_id agent_id agent_name] }
      (.ok final, st')
  match inner with
  | (.error e, st') =>
    (.error e, { st' with
      log := st'.log ++ [.agent_error run_id agent_id agent_name e.pyMsg] })
  | ok => ok

/-! ## `ThesisCoTAgent.run` (src/agents/thesis_agent.py) -/

/-- The `SECTION_TO_FILENAME` class constant (insertion order kept). -/
def SECTION_TO_FILENAME : List (String × String) :=
  [("business_overview", "company_overview"),
   ("key_financials", "key_financials"),
   ("valuation", "valuation"),
   ("risk_assessment", "risks"),
   ("sell_side_summary", "sell_side_summary"),
   ("competitor_comparison", "competitor_comparison")]

/-- Behaviour of the `ReportLabUtils.build_annual_report` collaborator:
raise, or succeed writing the PDF (of the given size) at `out_path`. -/
inductive BuildBeh where
  | raises (msg : String)
  | succeeds (pdfSize : Nat)
  deriving Repr

/-- The section-matching loop of `ThesisCoTAgent.run` (lines 37-52):
the first hit in `available_files` is mapped; a miss calls the
nonexistent `event_logger.log_hallucination`, which raises before the
`hallucinations.append(section)` of the source is reached. -/
def thesisSectionLoop (workDir : String) (available_files : List String) :
    List (String × String) → List (String × Option String) → List String → PState →
    Except Err (List (String × Option String) × List String) × PState
  | [], sectionMap, halls, st => (.ok (sectionMap, halls), st)
  | (sec, substr) :: rest, sectionMap, halls, st =>
    match available_files.find?
        (fun fname => strContains (strLower fname) (strLower substr)) with
    | some fname =>
      thesisSectionLoop workDir available_files rest
        (sectionMap ++ [(sec, some (pathJoin workDir fname))]) halls st
    | none =>
      match log_hallucination with
      | .error e => (.error e, st)
      | .ok _ =>
        thesisSectionLoop workDir available_files rest
          (sectionMap ++ [(sec, none)]) (halls ++ [sec]) st

/-- The two dict shapes returned by `ThesisCoTAgent.run`: the success
dict of lines 94-100 and the failure dict (`{"status": "FAILED",
"message": msg}`) of lines 64 and 89. -/
inductive ThesisOutput where
  | success (pdf_path : String) (sections : List String)
      (hallucinations : List String) (build_status : String)
  | failure (message : String)
  deriving DecidableEq, Repr

/-- The `"status"` field of a `ThesisCoTAgent.run` result. -/
def ThesisOutput.status : ThesisOutput → String
  | .success _ _ _ _ => "TERMINATE"
  | .failure _ => "FAILED"

/-- The stage input of `ThesisCoTAgent.run` with the source's defaults. -/
structure TInput where
  work_dir : Option String
  ticker_symbol : Option String
  fyear : Option String
  deriving DecidableEq, Repr

/-- `ThesisCoTAgent.run` (thesis_agent.py lines 21-102), with the
directory listing and the PDF compiler abstracted as environment. -/
def thesisRun (input : TInput) (runId agentId agent_name : String)
    (available_files : List String) (build : BuildBeh) (st : PState) :
    Except Err ThesisOutput × PState :=
  let st : PState := { st with
    log := st.log ++ [.agent_start runId agentId agent_name] }
  let work_dir := input.work_dir.getD "./report"
  let ticker := input.ticker_symbol.getD "Company"
  let fyear := input.fyear.getD "2024"
  let st : PState := { st with
    log := st.log ++ [.tool_call runId agent_name "list_available_files"] }
  match thesisSectionLoop work_dir available_files SECTION_TO_FILENAME [] [] st with
  | (.error e, st') => (.error e, st')
  | (.ok (section_file_map, hallucinations), st') =>
    let out_path := pathJoin work_dir (ticker ++ "_" ++ fyear ++ "_Annual_Report.pdf")
    let filtered := section_file_map.filterMap
      (fun p => p.2.map (fun v => (p.1, v)))
    if filtered.isEmpty then
      let msg := "No summary files found, cannot build report."
      let st' : PState := { st' with
        log := st'.log ++ [.agent_error runId agentId agent_name msg] }
      (.ok (.failure msg), st')
    else
      let st' : PState := { st' with
        log := st'.log ++ [.tool_call runId agent_name "build_annual_report"] }
      match build with
      | .raises bmsg =>
        let st' : PState := { st' with
          log := st'.log ++ [.tool_result runId agent_name "build_annual_report" bmsg false] }
        let msg := "Report compilation failed: " ++ bmsg
        let st' : PState := { st' with
          log := st'.log ++ [.agent_error runId agentId agent_name msg] }
        (.ok (.failure msg), st')
      | .succeeds pdfSize =>
        let st' : PState := { st' with
          fs := fsSet st'.fs out_path pdfSize,
          log := st'.log ++ [.tool_result runId agent_name "build_annual_report" out_path true] }
        let st' : PState := { st' with
          log := st'.log ++ [.llm_metrics runId agent_name "N/A"] }
        let out := ThesisOutput.success out_path (filtered.map (·.1)) hallucinations "success"
        let st' : PState := { st' with
          log := st'.log ++ [.agent_end runId agentId agent_name] }
        (.ok out, st')

/-! ## Stage-output dicts as seen across agent boundaries

The orchestrator (`expert_investor.py`), the shadow auditor and the
pipeline only inspect a stage output through `key in d` and
`d.get("hallucinations", ...)`; `PyDict` records exactly that view:
the key list of the returned dict and the value at `"hallucinations"`
(`none` = key absent). -/

/-- Key-set / hallucination view of a Python stage-output dict. -/
structure PyDict where
  keys : List String
  halls : Option (List String)
  deriving DecidableEq, Repr

/-- `d.get("hallucinations", [])`. -/
def PyDict.getHalls (d : PyDict) : List String := d.halls.getD []

/-- The dict literal of us_data_agent.py lines 160-166, viewed as a `PyDict`. -/
def DataOutput.toDict (o : DataOutput) : PyDict :=
  ⟨["validated_files", "failed_files", "hallucinations", "tool_stats", "status"],
    some o.hallucinations⟩

/-- The dict literal of concept_agent.py lines 114-119, viewed as a `PyDict`. -/
def ConceptOutput.toDict (o : ConceptOutput) : PyDict :=
  ⟨["status", "outputs", "summary_stats", "hallucinations"], some o.hallucinations⟩

/-- The dict literals of thesis_agent.py lines 64/89 and 94-100, viewed
as `PyDict`s; the failure dict carries no `"hallucinations"` key. -/
def ThesisOutput.toDict : ThesisOutput → PyDict
  | .success _ _ h _ =>
    ⟨["pdf_path", "sections", "hallucinations", "build_status", "status"], some h⟩
  | .failure _ => ⟨["status", "message"], none⟩

/-! ## `ExpertInvestorShadow.run` (src/agents/expert_investor_shadow.py) -/

/-- One entry of the shadow auditor's `issues` list. -/
structure Issue where
  issue : String
  fix : String
  reasoning : Option String
  result : String
  deriving DecidableEq, Repr

/-- The `audit_output` dict of expert_investor_shadow.py lines 56-60. -/
structure AuditOutput where
  stage : String
  issues : List Issue
  status : String
  deriving DecidableEq, Repr

/-- What `ExpertInvestorShadow.run` returns (line 63):
`audit_output if issues else input_data`. -/
inductive ShadowRet where
  | audit (a : AuditOutput)
  | passThrough (d : PyDict)
  deriving DecidableEq, Repr

/-- `ExpertInvestorShadow.run` (expert_investor_shadow.py lines 13-63). -/
def shadowRun (input : PyDict) (runId agentId agent_name stage : String)
    (judge : List String → String → String) (st : PState) :
    Except Err ShadowRet × PState :=
  let st : PState := { st with
    log := st.log ++ [.agent_start runId agentId agent_name] }
  let hallucinations := input.getHalls
  let missingIssues := (["created_files", "status"].filter
      (fun k => k ∉ input.keys)).map
    (fun k => Issue.mk ("Missing key: " ++ k)
      ("Check data generation in stage: " ++ stage) none "FAIL")
  let issues := missingIssues ++
    (if hallucinations.isEmpty then [] else
      [Issue.mk "Hallucinations found in output"
        "Review model response logic or tool input handling."
        (some (judge hallucinations ("shadow QA - " ++ stage))) "WARN"])
  let issueEvents : List Event := issues.map
    (fun i => .evaluation_metric runId "QA Issue" 0 (i.reasoning.getD i.issue) 0)
  let st : PState := { st with log := st.log ++ issueEvents }
  let audit_output := AuditOutput.mk stage issues
    (if issues.isEmpty then "TERMINATE" else "FAILED")
  let st : PState := { st with
    log := st.log ++ [.agent_end runId agentId agent_name] }
  (.ok (if issues.isEmpty then .passThrough input else .audit audit_output), st)

/-! ## `ExpertInvestor.run` (src/agents/expert_investor.py)

The stage agents and the shadow arrive through the `context` dict; one
invocation of an injected agent is modelled by its observable behaviour
`Beh`: the events it appends to the log and its outcome. -/

/-- Observable behaviour of one call of an injected collaborator. -/
structure Beh (α : Type) where
  events : List Event
  result : Except Err α

/-- Running an injected collaborator from the current state. -/
def runBeh {α : Type} (b : Beh α) (st : PState) : Except Err α × PState :=
  (b.result, { st with log := st.log ++ b.events })

/-- The body of the orchestrator's `try` block (expert_investor.py
lines 30-87): the three stages in order, each with `agent_start /
agent_end` bracketing and the shadow hand-off audit, then the
cross-stage aggregation and the "Orchestration Faithfulness" metric. -/
def expertBody (runId agentId agent_name : String)
    (dataName conceptName thesisName : String)
    (dataB : Beh PyDict) (conceptB : PyDict → Beh PyDict)
    (thesisB : PyDict → Beh PyDict)
    (shadowB : PyDict → String → Beh ShadowRet)
    (judge : List String → String → String) (st : PState) :
    Except Err PyDict × PState :=
  let data_agent_id := dataName ++ "-" ++ runId
  let st : PState := { st with
    log := st.log ++ [.agent_start runId data_agent_id dataName] }
  match runBeh dataB st with
  | (.error e, s) => (.error e, s)
  | (.ok data, s) =>
    let s : PState := { s with
      log := s.log ++ [.agent_end runId data_agent_id dataName] }
    match runBeh (shadowB data "Data Gathering") s with
    | (.error e, s) => (.error e, s)
    | (.ok _, s) =>
      let all1 := data.getHalls
      let concept_agent_id := conceptName ++ "-" ++ runId
      let s : PState := { s with
        log := s.log ++ [.agent_start runId concept_agent_id conceptName] }
      match runBeh (conceptB data) s with
      | (.error e, s) => (.error e, s)
      | (.ok analysis, s) =>
        let s : PState := { s with
          log := s.log ++ [.agent_end runId concept_agent_id conceptName] }
        match runBeh (shadowB analysis "Analysis") s with
        | (.error e, s) => (.error e, s)
        | (.ok _, s) =>
          let all2 := all1 ++ analysis.getHalls
          let thesis_agent_id := thesisName ++ "-" ++ runId
          let s : PState := { s with
            log := s.log ++ [.agent_start runId thesis_agent_id thesisName] }
          match runBeh (thesisB analysis) s with
          | (.error e, s) => (.error e, s)
          | (.ok report, s) =>
            let s : PState := { s with
              log := s.log ++ [.agent_end runId thesis_agent_id thesisName] }
            match runBeh (shadowB report "Final Compilation") s with
            | (.error e, s) => (.error e, s)
            | (.ok _, s) =>
              let all_hallucinations := all2 ++ report.getHalls
              let sr : Rat × String :=
                if all_hallucinations.isEmpty then
                  (1, "All stages completed successfully without any hallucination indicators.")
                else (0, judge all_hallucinations "cross-stage hallucination trace")
              let s : PState := { s with log := s.log ++
                [.evaluation_metric runId "Orchestration Faithfulness" sr.1 sr.2
                  all_hallucinations.length] }
              let s : PState := { s with
                log := s.log ++ [.agent_end runId agentId agent_name] }
              (.ok report, s)

/-- `ExpertInvestor.run` (expert_investor.py lines 16-92): orchestrator
`agent_start`, the `try` body, and the `except` clause that logs
`agent_error` and re-raises. -/
def expertRun (runId agentId agent_name : String)
    (dataName conceptName thesisName : String)
    (dataB : Beh PyDict) (conceptB : PyDict → Beh PyDict)
    (thesisB : PyDict → Beh PyDict)
    (shadowB : PyDict → String → Beh ShadowRet)
    (judge : List String → String → String) (st : PState) :
    Except Err PyDict × PState :=
  let st : PState := { st with
    log := st.log ++ [.agent_start runId agentId agent_name] }
  match expertBody runId agentId agent_name dataName conceptName thesisName
      dataB conceptB thesisB shadowB judge st with
  | (.error e, s) =>
    (.error e, { s with
      log := s.log ++ [.agent_error runId agentId agent_name e.pyMsg] })
  | ok => ok

/-! ## `CoTPipeline.run` (src/agents/agent_pipeline.py) -/

/-- `CoTPipeline.run` (agent_pipeline.py lines 31-73).  Note the source
calls `log_pipeline_start(run_id, input_query, ...)` against the
signature `log_pipeline_start(query, run_id, ...)`, so the emitted
`pipeline_start` event has its `run_id` and `query` fields swapped;
the embedding reproduces that.  The expert investor's stage agents are
injected as behaviours exactly as in `expertRun`. -/
def pipelineRun (runId input_query : String)
    (expertAgentId expertName dataName conceptName thesisName : String)
    (dataB : Beh PyDict) (conceptB : PyDict → Beh PyDict)
    (thesisB : PyDict → Beh PyDict)
    (shadowB : PyDict → String → Beh ShadowRet)
    (judge : List String → String → String) (st : PState) :
    Except Err PyDict × PState :=
  let st : PState := { st with
    log := st.log ++ [.pipeline_start input_query runId] }
  match expertRun runId expertAgentId expertName dataName conceptName thesisName
      dataB conceptB thesisB shadowB judge st with
  | (.error e, s) =>
    (.error e, { s with log := s.log ++ [.pipeline_error runId e.pyMsg] })
  | (.ok report, s) =>
    let hallucinations := report.halls
    let ss : Rat × String :=
      match hallucinations with
      | some (h :: t) => (0, judge (h :: t) "final pipeline output")
      | _ => (1, "Report appears internally consistent and free of hallucinations.")
    let count := match hallucinations with
      | some (h :: t) => (h :: t).length
      | _ => 0
    let s : PState := { s with log := s.log ++
      [.evaluation_metric runId "Pipeline Output Faithfulness" ss.1 ss.2 count] }
    let s : PState := { s with log := s.log ++ [.pipeline_end runId] }
    (.ok report, s)

/-! ## The tracer context managers (src/event_logger.py, lines 207-250)

A wrapped body is modelled by its observable interaction with the scope:
the sequence of invocations of the yielded `log_end` / `log_error`
callbacks, followed by its termination (normal return or raise). -/

/-- One invocation of a yielded terminal-logging callback. -/
inductive CbCall where
  | onEnd
  | onErr (msg : String)
  deriving DecidableEq, Repr

/-- How the wrapped body terminates. -/
inductive BodyOutcome where
  | ret
  | raises (msg : String)
  deriving DecidableEq, Repr

/-- The event emitted by one invocation of a `pipeline_run` callback
(`log_end_pipeline` / `log_error_pipeline`, lines 214-222). -/
def cbToPipelineEvent (run_id : String) : CbCall → Event
  | .onEnd => .pipeline_end run_id
  | .onErr m => .pipeline_error run_id m

/-- The event emitted by one invocation of an `agent_run` callback
(`log_end` / `log_error`, lines 238-244). -/
def cbToAgentEvent (run_id freshAgentId agent_name : String) : CbCall → Event
  | .onEnd => .agent_end run_id freshAgentId agent_name
  | .onErr m => .agent_error run_id freshAgentId agent_name m

/-- `pipeline_run` (event_logger.py lines 207-228): emits
`pipeline_start`, replays the body's callback invocations, and — only
when the body raises — emits one `pipeline_error` from the `except`
clause before re-raising. -/
def pipeline_run (query run_id : String) (calls : List CbCall)
    (outcome : BodyOutcome) : Except Err Unit × List Event :=
  let log := [Event.pipeline_start run_id query]
  let log := log ++ calls.map (cbToPipelineEvent run_id)
  match outcome with
  | .ret => (.ok (), log)
  | .raises m => (.error (.raised m), log ++ [.pipeline_error run_id m])

/-- `agent_run` (event_logger.py lines 230-250).  The source discards
the `agent_id` argument and replaces it with a fresh `uuid4`, modelled
by `freshAgentId`. -/
def agent_run (run_id freshAgentId agent_name : String) (calls : List CbCall)
    (outcome : BodyOutcome) : Except Err Unit × List Event :=
  let log := [Event.agent_start run_id freshAgentId agent_name]
  let log := log ++ calls.map (cbToAgentEvent run_id freshAgentId agent_name)
  match outcome with
  | .ret => (.ok (), log)
  | .raises m => (.error (.raised m), log ++ [.agent_error run_id freshAgentId agent_name m])

/-! ## Event-counting observables -/

/-- Is this event a terminal pipeline event (`pipeline_end` /
`pipeline_error`) of the given run? -/
def isPipelineTerminal (run_id : String) : Event → Bool
  | .pipeline_end r => r = run_id
  | .pipeline_error r _ => r = run_id
  | _ => false

/-- Is this event a terminal agent event (`agent_end` / `agent_error`)
of the given run? -/
def isAgentTerminal (run_id : String) : Event → Bool
  | .agent_end r _ _ => r = run_id
  | .agent_error r _ _ _ => r = run_id
  | _ => false

/-- Number of events satisfying `p` in a log. -/
def countEvents (p : Event → Bool) (log : List Event) : Nat :=
  (log.filter p).length

/-- Is this event an `evaluation_metric` with the given metric name? -/
def isMetric (metric : String) : Event → Bool
  | .evaluation_metric _ m _ _ _ => m = metric
  | _ => false

/-- 1 when the body raises, else 0 (for terminal-event counting). -/
def BodyOutcome.raiseCount : BodyOutcome → Nat
  | .ret => 0
  | .raises _ => 1

/-- Files created by the Compilation stage: the compiled PDF on success,
nothing on failure (the failure dicts carry no file). -/
def ThesisOutput.created_files : ThesisOutput → List String
  | .success pdf_path _ _ _ => [pdf_path]
  | .failure _ => []

/-- The Compilation stage's output-producing tool manifest: the single
`ReportLabUtils.build_annual_report` call (the only tool of
`ThesisCoTAgent.run` that produces an artifact; `list_available_files`
is a read). -/
def thesisManifest : List String := ["build_annual_report"]

/-! # Theorems -/

/-- Helper: with an always-429 stream, `rlGo` spends all its fuel,
sleeping `b ^ (a + i)` on the `i`-th remaining attempt. -/
theorem rlGo_allRL (f : Nat → ApiResp) (b : Nat) (h : ∀ k, f k = .dict429) :
    ∀ (m a : Nat), rlGo f b a m =
      ⟨.maxRetriesExceeded, (List.range m).map (fun i => b ^ (a + i)), m⟩ := by
  intro m
  induction m with
  | zero => intro a; simp [rlGo]
  | succ r ih =>
    intro a
    rw [rlGo, h a]
    simp only [ih (a + 1), List.range_succ_eq_map, List.map_cons, List.map_map]
    refine RLTrace.mk.injEq .. ▸ ⟨rfl, ?_, rfl⟩
    simp only [Nat.add_zero, List.cons.injEq, true_and]
    exact List.map_congr_left (fun i _ => by
      show b ^ (a + 1 + i) = b ^ (a + (i + 1))
      rw [Nat.add_right_comm, Nat.add_assoc])

/-- C6: with a tool function that on every invocation returns a
rate-limit (`status == 429`) dict, `call_with_rate_limit_handling`
invokes it exactly `max_retries` times, sleeps
`backoff_factor ** 0, …, backoff_factor ** (max_retries - 1)` seconds
between/after attempts, and returns the terminal
"Max retries exceeded" failure dict instead of raising an exception. -/
theorem c6_rate_limit_retry_ceiling (f : Nat → ApiResp)
    (max_retries backoff_factor : Nat) (h : ∀ k, f k = .dict429) :
    call_with_rate_limit_handling f max_retries backoff_factor =
      ⟨.maxRetriesExceeded,
        (List.range max_retries).map (fun i => backoff_factor ^ i), max_retries⟩ := by
  unfold call_with_rate_limit_handling
  rw [rlGo_allRL f backoff_factor h max_retries 0]
  simp

/-- Witness for C6 at the source defaults `max_retries=3`,
`backoff_factor=2`: three invocations, sleeps `2**0, 2**1, 2**2 =
1, 2, 4` seconds, terminal failure result. -/
theorem c6_rate_limit_retry_ceiling_witness :
    call_with_rate_limit_handling (fun _ => .dict429) 3 2 =
      ⟨.maxRetriesExceeded, [1, 2, 4], 3⟩ := by
  rw [c6_rate_limit_retry_ceiling (fun _ => .dict429) 3 2 (fun _ => rfl)]
  rfl

/-- C5 counterexample: a `pipeline_run` scope whose wrapped body
terminates normally without invoking either yielded callback emits zero
terminal events — refuting "exactly one terminal event is emitted per
scope, regardless of how the wrapped code terminates". -/
theorem c5_counterexample :
    countEvents (isPipelineTerminal "run-1")
      (pipeline_run "q" "run-1" [] .ret).2 = 0 := by
  rfl

/-- C5 amended: a scope opened by `pipeline_run` / `agent_run` emits one
terminal event per callback invocation by the wrapped code, plus exactly
one additional error event (carrying the propagated message) when the
body raises, emitted before the exception continues upward.  Hence
"exactly one terminal event" holds only when the body honours the
callback contract: a body returning without invoking a callback yields
zero terminal events, and a body that invokes a callback and then raises
yields two. -/
theorem c5_scope_terminal_events (query run_id freshAgentId agent_name msg : String)
    (calls : List CbCall) (outcome : BodyOutcome) :
    countEvents (isPipelineTerminal run_id)
        (pipeline_run query run_id calls outcome).2 =
      calls.length + outcome.raiseCount ∧
    countEvents (isAgentTerminal run_id)
        (agent_run run_id freshAgentId agent_name calls outcome).2 =
      calls.length + outcome.raiseCount ∧
    (pipeline_run query run_id [] (.raises msg)).2 =
      [.pipeline_start run_id query, .pipeline_error run_id msg] ∧
    (pipeline_run query run_id [] (.raises msg)).1 = .error (.raised msg) := by
  have hp : ∀ c, isPipelineTerminal run_id (cbToPipelineEvent run_id c) = true := by
    intro c; cases c <;> simp [cbToPipelineEvent, isPipelineTerminal]
  have ha : ∀ c, isAgentTerminal run_id
      (cbToAgentEvent run_id freshAgentId agent_name c) = true := by
    intro c; cases c <;> simp [cbToAgentEvent, isAgentTerminal]
  have hfp : (calls.map (cbToPipelineEvent run_id)).filter
      (isPipelineTerminal run_id) = calls.map (cbToPipelineEvent run_id) :=
    List.filter_eq_self.mpr (by
      intro ev hev
      rcases List.mem_map.mp hev with ⟨c, _, rfl⟩
      exact hp c)
  have hfa : (calls.map (cbToAgentEvent run_id freshAgentId agent_name)).filter
      (isAgentTerminal run_id) =
      calls.map (cbToAgentEvent run_id freshAgentId agent_name) :=
    List.filter_eq_self.mpr (by
      intro ev hev
      rcases List.mem_map.mp hev with ⟨c, _, rfl⟩
      exact ha c)
  refine ⟨?_, ?_, rfl, rfl⟩
  · cases outcome <;>
      simp [pipeline_run, countEvents, List.filter_append, hfp,
        isPipelineTerminal, BodyOutcome.raiseCount]
  · cases outcome <;>
      simp [agent_run, countEvents, List.filter_append, hfa,
        isAgentTerminal, BodyOutcome.raiseCount]

/-- C1 (evaluation of the code at the failing input): running the real
nine-entry manifest with a first tool that raises, the per-tool `except`
handler does catch the exception (it emits its `tool_result` event with
`str(e)` and `success=False`), but the handler's own
`event_logger.log_hallucination_metric` call raises `AttributeError`,
which propagates out of `DataCoTAgentUS.run` — the stage aborts at the
first failing tool instead of recording a `tool_crash` fault and
continuing with the remaining eight tools. -/
theorem c1_tool_crash_aborts_stage :
    dataRun ⟨some "AAPL", some "2023", some "./w"⟩ "run-1" "agent-1"
        "Data_CoT_Agent_US"
        (usOutputs (fun n _ => if n = "analyze_income_stmt"
          then .raises "API timeout" else .ret (some 20000)))
        (fun _ _ => "judge") ⟨[], [], []⟩ =
      (.error (.attributeError "log_hallucination_metric"),
        ⟨[.agent_start "run-1" "agent-1" "Data_CoT_Agent_US",
          .tool_call "run-1" "Data_CoT_Agent_US" "analyze_income_stmt",
          .tool_result "run-1" "Data_CoT_Agent_US" "analyze_income_stmt"
            "API timeout" false],
          [], []⟩) := by
  rfl

/-- C7 (evaluation of the code at the failing input): when a manifest
entry's target path is already in the stage's generated-files registry,
the tool is not invoked, no retry happens and the state — event log,
working directory (so the first write's content), sleeps — is returned
unchanged; but instead of recording the `duplicate_output` fault and
skipping to the next entry, the stage aborts with `AttributeError` from
the nonexistent `event_logger.log_hallucination_metric`, so the fault
reaches neither the event log nor any returned StageResult. -/
theorem c7_duplicate_path_aborts
    (runId agent_name ticker fyear report_date work_dir : String)
    (e : OutputSpec) (acc : LoopAcc) (st : PState)
    (h : pathJoin work_dir e.output_file ∈ acc.generated_files_registry) :
    processEntry runId agent_name ticker fyear report_date work_dir e acc st =
      (.error (.attributeError "log_hallucination_metric"), st) := by
  unfold processEntry
  rw [if_pos h]
  rfl

/-- Witness for C7: Scenario C's duplicated target path
`05_competitor_analysis.txt` — the first entry has already written the
file (100 bytes); processing the second entry with the same path leaves
the file untouched, emits nothing, invokes nothing, and aborts. -/
theorem c7_duplicate_path_aborts_witness :
    processEntry "run-1" "Data_CoT_Agent_US" "AAPL" "2023" "2023-12-31" "./w"
        ⟨"Competitor Analysis B", "get_competitors_analysis_b",
          (fun _ => .ret (some 999)), "05_competitor_analysis.txt", .txt⟩
        ⟨["./w/05_competitor_analysis.txt"], [], [],
          [⟨"get_competitors_analysis", "./w/05_competitor_analysis.txt", true⟩],
          ["./w/05_competitor_analysis.txt"]⟩
        ⟨[], [("./w/05_competitor_analysis.txt", 100)], []⟩ =
      (.error (.attributeError "log_hallucination_metric"),
        ⟨[], [("./w/05_competitor_analysis.txt", 100)], []⟩) :=
  c7_duplicate_path_aborts "run-1" "Data_CoT_Agent_US" "AAPL" "2023" "2023-12-31"
    "./w" _ _ _ (by simp [pathJoin])

/-- C9: the shadow auditor's happy-path pass-through is unreachable for
the outputs the real stage agents produce: no output dict of
`DataCoTAgentUS.run` (`validated_files`/…), `ConceptCoTAgent.run`
(`outputs`/…) or `ThesisCoTAgent.run` (`pdf_path`/`sections` or
`status`/`message`) contains the key `"created_files"`, so every audit
records a FAIL issue "Missing key: created_files" and returns an
AuditReport with status "FAILED" instead of passing the stage output
through unchanged. -/
theorem c9_shadow_pass_through_unreachable
    (runId agentId agent_name stage : String)
    (judge : List String → String → String) (st : PState) :
    (∀ o : DataOutput, ∃ a : AuditOutput,
      (shadowRun o.toDict runId agentId agent_name stage judge st).1 =
        .ok (.audit a) ∧ a.status = "FAILED" ∧
      "Missing key: created_files" ∈ a.issues.map Issue.issue) ∧
    (∀ o : ConceptOutput, ∃ a : AuditOutput,
      (shadowRun o.toDict runId agentId agent_name stage judge st).1 =
        .ok (.audit a) ∧ a.status = "FAILED" ∧
      "Missing key: created_files" ∈ a.issues.map Issue.issue) ∧
    (∀ o : ThesisOutput, ∃ a : AuditOutput,
      (shadowRun o.toDict runId agentId agent_name stage judge st).1 =
        .ok (.audit a) ∧ a.status = "FAILED" ∧
      "Missing key: created_files" ∈ a.issues.map Issue.issue) := by
  refine ⟨fun o => ?_, fun o => ?_, fun o => ?_⟩
  · rcases o with ⟨vf, ff, halls, ts, stt⟩
    cases halls with
    | nil =>
      exact ⟨⟨stage, [⟨"Missing key: created_files",
        "Check data generation in stage: " ++ stage, none, "FAIL"⟩], "FAILED"⟩,
        rfl, rfl, by simp⟩
    | cons x xs =>
      exact ⟨⟨stage, [⟨"Missing key: created_files",
        "Check data generation in stage: " ++ stage, none, "FAIL"⟩,
        ⟨"Hallucinations found in output",
          "Review model response logic or tool input handling.",
          some (judge (x :: xs) ("shadow QA - " ++ stage)), "WARN"⟩], "FAILED"⟩,
        rfl, rfl, by simp⟩
  · rcases o with ⟨stt, outs, m, g, halls⟩
    cases halls with
    | nil =>
      exact ⟨⟨stage, [⟨"Missing key: created_files",
        "Check data generation in stage: " ++ stage, none, "FAIL"⟩], "FAILED"⟩,
        rfl, rfl, by simp⟩
    | cons x xs =>
      exact ⟨⟨stage, [⟨"Missing key: created_files",
        "Check data generation in stage: " ++ stage, none, "FAIL"⟩,
        ⟨"Hallucinations found in output",
          "Review model response logic or tool input handling.",
          some (judge (x :: xs) ("shadow QA - " ++ stage)), "WARN"⟩], "FAILED"⟩,
        rfl, rfl, by simp⟩
  · rcases o with ⟨pdf, secs, halls, bs⟩ | msg
    · cases halls with
      | nil =>
        exact ⟨⟨stage, [⟨"Missing key: created_files",
          "Check data generation in stage: " ++ stage, none, "FAIL"⟩], "FAILED"⟩,
          rfl, rfl, by simp⟩
      | cons x xs =>
        exact ⟨⟨stage, [⟨"Missing key: created_files",
          "Check data generation in stage: " ++ stage, none, "FAIL"⟩,
          ⟨"Hallucinations found in output",
            "Review model response logic or tool input handling.",
            some (judge (x :: xs) ("shadow QA - " ++ stage)), "WARN"⟩], "FAILED"⟩,
          rfl, rfl, by simp⟩
    · exact ⟨⟨stage, [⟨"Missing key: created_files",
        "Check data generation in stage: " ++ stage, none, "FAIL"⟩], "FAILED"⟩,
        rfl, rfl, by simp⟩

/-- C3: for every Run whose three stages return, the Run-level
hallucination list built by `ExpertInvestor.run` is exactly the in-order
concatenation Data ++ Analysis ++ Compilation of the stages'
hallucination lists: the "Orchestration Faithfulness" metric event is
emitted with that exact aggregate fed to the judge, its length as the
detail count, and score 0 iff it is nonempty; in particular (Scenario E)
with stage lists `["x"]` and `["y"]` the aggregate is exactly
`["x", "y"]` and the recorded score is 0.0. -/
theorem c3_fault_forwarding
    (runId agentId agent_name dataName conceptName thesisName : String)
    (d : PyDict) (ed : List Event)
    (cf tf : PyDict → PyDict) (cev tev : PyDict → List Event)
    (shEv : PyDict → String → List Event) (shRet : PyDict → String → ShadowRet)
    (judge : List String → String → String) (st : PState) :
    (expertRun runId agentId agent_name dataName conceptName thesisName
        ⟨ed, .ok d⟩ (fun x => ⟨cev x, .ok (cf x)⟩) (fun x => ⟨tev x, .ok (tf x)⟩)
        (fun x s => ⟨shEv x s, .ok (shRet x s)⟩) judge st).1 = .ok (tf (cf d)) ∧
    (Event.evaluation_metric runId "Orchestration Faithfulness"
        (if (d.getHalls ++ (cf d).getHalls ++ (tf (cf d)).getHalls).isEmpty then
          ((1 : Rat),
            "All stages completed successfully without any hallucination indicators.")
         else (0, judge (d.getHalls ++ (cf d).getHalls ++ (tf (cf d)).getHalls)
            "cross-stage hallucination trace")).1
        (if (d.getHalls ++ (cf d).getHalls ++ (tf (cf d)).getHalls).isEmpty then
          ((1 : Rat),
            "All stages completed successfully without any hallucination indicators.")
         else (0, judge (d.getHalls ++ (cf d).getHalls ++ (tf (cf d)).getHalls)
            "cross-stage hallucination trace")).2
        (d.getHalls ++ (cf d).getHalls ++ (tf (cf d)).getHalls).length)
      ∈ (expertRun runId agentId agent_name dataName conceptName thesisName
        ⟨ed, .ok d⟩ (fun x => ⟨cev x, .ok (cf x)⟩) (fun x => ⟨tev x, .ok (tf x)⟩)
        (fun x s => ⟨shEv x s, .ok (shRet x s)⟩) judge st).2.log ∧
    (expertRun "run-1" "exp-1" "Expert_Investor" "D" "C" "T"
        ⟨[], .ok ⟨["validated_files", "failed_files", "hallucinations",
          "tool_stats", "status"], some ["x"]⟩⟩
        (fun _ => ⟨[], .ok ⟨["status", "outputs", "summary_stats",
          "hallucinations"], some ["y"]⟩⟩)
        (fun _ => ⟨[], .ok (ThesisOutput.failure "m").toDict⟩)
        (fun x _ => ⟨[], .ok (.passThrough x)⟩)
        (fun l _ => String.intercalate ";" l) ⟨[], [], []⟩).2.log.filter
      (isMetric "Orchestration Faithfulness") =
      [.evaluation_metric "run-1" "Orchestration Faithfulness" 0 "x;y" 2] := by
  refine ⟨rfl, ?_, by rfl⟩
  exact List.mem_append_left _ (List.mem_append_right _ (List.mem_singleton_self _))

/-- C8 counterexample: a Run whose Data stage raises reaches the
`Failed` terminal state (a `pipeline_error` event is emitted and the
exception propagates), yet the "Orchestration Faithfulness" metric is
written zero times — refuting "written exactly once regardless of the
Run's terminal state". -/
theorem c8_counterexample :
    (pipelineRun "run-1" "query" "exp-1" "Expert_Investor" "D" "C" "T"
        ⟨[], .error (.raised "data stage boom")⟩
        (fun _ => ⟨[], .ok ⟨[], none⟩⟩) (fun _ => ⟨[], .ok ⟨[], none⟩⟩)
        (fun x _ => ⟨[], .ok (.passThrough x)⟩) (fun _ _ => "J")
        ⟨[], [], []⟩).1 = .error (.raised "data stage boom") ∧
    countEvents (isMetric "Orchestration Faithfulness")
      (pipelineRun "run-1" "query" "exp-1" "Expert_Investor" "D" "C" "T"
        ⟨[], .error (.raised "data stage boom")⟩
        (fun _ => ⟨[], .ok ⟨[], none⟩⟩) (fun _ => ⟨[], .ok ⟨[], none⟩⟩)
        (fun x _ => ⟨[], .ok (.passThrough x)⟩) (fun _ _ => "J")
        ⟨[], [], []⟩).2.log = 0 ∧
    Event.pipeline_error "run-1" "data stage boom" ∈
      (pipelineRun "run-1" "query" "exp-1" "Expert_Investor" "D" "C" "T"
        ⟨[], .error (.raised "data stage boom")⟩
        (fun _ => ⟨[], .ok ⟨[], none⟩⟩) (fun _ => ⟨[], .ok ⟨[], none⟩⟩)
        (fun x _ => ⟨[], .ok (.passThrough x)⟩) (fun _ _ => "J")
        ⟨[], [], []⟩).2.log := by
  refine ⟨rfl, rfl, by decide⟩

/-- C8 amended: the "Orchestration Faithfulness" metric is written
exactly once for every Run whose three stage invocations (and shadow
audits) return normally — the events it emits beyond the caller's log
contain exactly one such metric, and that one carries score 0.0 with
the judge-generated consolidated explanation of the aggregate when the
aggregated cross-stage hallucination list is nonempty, and score 1.0
with the canned all-clear reasoning when it is empty; for a Run that
reaches the `Failed` terminal state through a stage exception the
metric is not written at all (zero times).  The hypotheses say only
that the injected collaborators do not themselves emit events named
"Orchestration Faithfulness". -/
theorem c8_orchestration_metric_once
    (runId query eAid eName dn cn tn : String)
    (d : PyDict) (ed ed2 : List Event) (cf tf : PyDict → PyDict)
    (cev tev : PyDict → List Event)
    (shEv : PyDict → String → List Event) (shRet : PyDict → String → ShadowRet)
    (judge : List String → String → String) (st : PState) (msg : String)
    (hno : ∀ ev ∈ ed ++ cev d ++ tev (cf d) ++ shEv d "Data Gathering" ++
      shEv (cf d) "Analysis" ++ shEv (tf (cf d)) "Final Compilation",
      isMetric "Orchestration Faithfulness" ev = false)
    (hno2 : ∀ ev ∈ ed2, isMetric "Orchestration Faithfulness" ev = false) :
    ((pipelineRun runId query eAid eName dn cn tn ⟨ed, .ok d⟩
        (fun x => ⟨cev x, .ok (cf x)⟩) (fun x => ⟨tev x, .ok (tf x)⟩)
        (fun x s => ⟨shEv x s, .ok (shRet x s)⟩) judge st).2.log.drop
          st.log.length).filter (isMetric "Orchestration Faithfulness") =
      [Event.evaluation_metric runId "Orchestration Faithfulness"
        (if (d.getHalls ++ (cf d).getHalls ++ (tf (cf d)).getHalls).isEmpty then
          ((1 : Rat),
            "All stages completed successfully without any hallucination indicators.")
         else (0, judge (d.getHalls ++ (cf d).getHalls ++ (tf (cf d)).getHalls)
            "cross-stage hallucination trace")).1
        (if (d.getHalls ++ (cf d).getHalls ++ (tf (cf d)).getHalls).isEmpty then
          ((1 : Rat),
            "All stages completed successfully without any hallucination indicators.")
         else (0, judge (d.getHalls ++ (cf d).getHalls ++ (tf (cf d)).getHalls)
            "cross-stage hallucination trace")).2
        (d.getHalls ++ (cf d).getHalls ++ (tf (cf d)).getHalls).length] ∧
    countEvents (isMetric "Orchestration Faithfulness")
      ((pipelineRun runId query eAid eName dn cn tn ⟨ed2, .error (.raised msg)⟩
        (fun x => ⟨cev x, .ok (cf x)⟩) (fun x => ⟨tev x, .ok (tf x)⟩)
        (fun x s => ⟨shEv x s, .ok (shRet x s)⟩) judge st).2.log.drop
          st.log.length) = 0 := by
  have hmem : ∀ (l : List Event),
      (∀ ev ∈ l, isMetric "Orchestration Faithfulness" ev = false) →
      l.filter (isMetric "Orchestration Faithfulness") = [] := by
    intro l hl
    exact List.filter_eq_nil_iff.mpr (fun ev h => by simp [hl ev h])
  have h1 := hmem ed (fun ev h => hno ev (by simp [h]))
  have h2 := hmem (cev d) (fun ev h => hno ev (by simp [h]))
  have h3 := hmem (tev (cf d)) (fun ev h => hno ev (by simp [h]))
  have h4 := hmem (shEv d "Data Gathering") (fun ev h => hno ev (by simp [h]))
  have h5 := hmem (shEv (cf d) "Analysis") (fun ev h => hno ev (by simp [h]))
  have h6 := hmem (shEv (tf (cf d)) "Final Compilation")
    (fun ev h => hno ev (by simp [h]))
  have h7 := hmem ed2 hno2
  constructor
  · simp only [pipelineRun, expertRun, expertBody, runBeh, List.append_assoc]
    rw [List.drop_left]
    simp [List.filter_append, h1, h2, h3, h4, h5, h6, isMetric]
  · simp only [pipelineRun, expertRun, expertBody, runBeh, List.append_assoc]
    rw [List.drop_left]
    simp [countEvents, List.filter_append, h7, isMetric]

/-- Witness for C8's amended theorem: collaborators that emit no events
of their own and an empty aggregate — the completed Run writes the
metric exactly once, with score 1.0 and the canned all-clear reasoning;
the stage-exception Run writes it zero times. -/
theorem c8_orchestration_metric_once_witness :
    ((pipelineRun "run-1" "q" "e-1" "Expert_Investor" "D" "C" "T"
        ⟨[], .ok ⟨["status"], some []⟩⟩
        (fun _ => ⟨[], .ok ⟨["status"], some []⟩⟩)
        (fun _ => ⟨[], .ok ⟨["status"], some []⟩⟩)
        (fun x _ => ⟨[], .ok (.passThrough x)⟩) (fun _ _ => "J")
        ⟨[], [], []⟩).2.log.drop 0).filter
      (isMetric "Orchestration Faithfulness") =
      [Event.evaluation_metric "run-1" "Orchestration Faithfulness" 1
        "All stages completed successfully without any hallucination indicators." 0] ∧
    countEvents (isMetric "Orchestration Faithfulness")
      ((pipelineRun "run-1" "q" "e-1" "Expert_Investor" "D" "C" "T"
        ⟨[], .error (.raised "boom")⟩
        (fun _ => ⟨[], .ok ⟨["status"], some []⟩⟩)
        (fun _ => ⟨[], .ok ⟨["status"], some []⟩⟩)
        (fun x _ => ⟨[], .ok (.passThrough x)⟩) (fun _ _ => "J")
        ⟨[], [], []⟩).2.log.drop 0) = 0 :=
  c8_orchestration_metric_once "run-1" "q" "e-1" "Expert_Investor" "D" "C" "T"
    ⟨["status"], some []⟩ [] [] (fun _ => ⟨["status"], some []⟩)
    (fun _ => ⟨["status"], some []⟩) (fun _ => []) (fun _ => [])
    (fun _ _ => []) (fun x _ => .passThrough x) (fun _ _ => "J")
    ⟨[], [], []⟩ "boom" (by simp) (by simp)

/-- C10: when the Compilation stage takes its failure path it returns a
dict holding only `status` and `message` (no `hallucinations` key), so a
Run whose Data and Analysis stages report empty hallucination lists ends
with an empty aggregate: the recorded "Orchestration Faithfulness" and
the top-level "Pipeline Output Faithfulness" scores are both 1.0 — and
the Run completes with `pipeline_end` — despite the failed
compilation. -/
theorem c10_failed_compilation_scores_one
    (runId query eAid eName dn cn tn : String) (dk ck : List String)
    (ed : List Event) (cev tev : PyDict → List Event)
    (shEv : PyDict → String → List Event) (shRet : PyDict → String → ShadowRet)
    (judge : List String → String → String) (st : PState) (tmsg : String)
    (input : TInput) (rid2 aid2 an2 : String) (bmsg : String) (st2 : PState) :
    (pipelineRun runId query eAid eName dn cn tn
        ⟨ed, .ok ⟨dk, some []⟩⟩ (fun x => ⟨cev x, .ok ⟨ck, some []⟩⟩)
        (fun x => ⟨tev x, .ok (ThesisOutput.failure tmsg).toDict⟩)
        (fun x s => ⟨shEv x s, .ok (shRet x s)⟩) judge st).1 =
      .ok (ThesisOutput.failure tmsg).toDict ∧
    Event.evaluation_metric runId "Orchestration Faithfulness" 1
      "All stages completed successfully without any hallucination indicators." 0
      ∈ (pipelineRun runId query eAid eName dn cn tn
        ⟨ed, .ok ⟨dk, some []⟩⟩ (fun x => ⟨cev x, .ok ⟨ck, some []⟩⟩)
        (fun x => ⟨tev x, .ok (ThesisOutput.failure tmsg).toDict⟩)
        (fun x s => ⟨shEv x s, .ok (shRet x s)⟩) judge st).2.log ∧
    Event.evaluation_metric runId "Pipeline Output Faithfulness" 1
      "Report appears internally consistent and free of hallucinations." 0
      ∈ (pipelineRun runId query eAid eName dn cn tn
        ⟨ed, .ok ⟨dk, some []⟩⟩ (fun x => ⟨cev x, .ok ⟨ck, some []⟩⟩)
        (fun x => ⟨tev x, .ok (ThesisOutput.failure tmsg).toDict⟩)
        (fun x s => ⟨shEv x s, .ok (shRet x s)⟩) judge st).2.log ∧
    Event.pipeline_end runId
      ∈ (pipelineRun runId query eAid eName dn cn tn
        ⟨ed, .ok ⟨dk, some []⟩⟩ (fun x => ⟨cev x, .ok ⟨ck, some []⟩⟩)
        (fun x => ⟨tev x, .ok (ThesisOutput.failure tmsg).toDict⟩)
        (fun x s => ⟨shEv x s, .ok (shRet x s)⟩) judge st).2.log ∧
    (thesisRun input rid2 aid2 an2
        ["01_company_overview.txt", "02_key_financials.txt", "03_valuation.txt",
         "04_risks.txt", "05_sell_side_summary.txt", "06_competitor_comparison.txt"]
        (.raises bmsg) st2).1 =
      .ok (.failure ("Report compilation failed: " ++ bmsg)) ∧
    (ThesisOutput.failure ("Report compilation failed: " ++ bmsg)).toDict =
      ⟨["status", "message"], none⟩ := by
  refine ⟨rfl, ?_, ?_, ?_, rfl, rfl⟩
  · exact List.mem_append_left _ (List.mem_append_left _ (List.mem_append_left _
      (List.mem_append_right _ (List.mem_singleton_self _))))
  · exact List.mem_append_left _ (List.mem_append_right _ (List.mem_singleton_self _))
  · exact List.mem_append_right _ (List.mem_singleton_self _)

/-- C4 counterexample: a Run whose Compilation stage's document build
fails (the real `ThesisCoTAgent.run` catches the build exception and
returns `{"status": "FAILED", "message": …}`) completes with
`pipeline_end` as its only terminal pipeline event — the Run does not
transition to `Failed`, refuting "a compilation failure (document build
failure or empty section map) is fatal to the Run". -/
theorem c4_counterexample :
    (thesisRun ⟨some "./w", some "AAPL", some "2023"⟩ "run-1" "t-1" "Thesis_CoT_Agent"
        ["01_company_overview.txt", "02_key_financials.txt", "03_valuation.txt",
         "04_risks.txt", "05_sell_side_summary.txt", "06_competitor_comparison.txt"]
        (.raises "reportlab error") ⟨[], [], []⟩).1 =
      .ok (.failure "Report compilation failed: reportlab error") ∧
    (pipelineRun "run-1" "q" "exp-1" "Expert_Investor" "D" "C" "T"
        ⟨[], .ok ⟨["validated_files", "failed_files", "hallucinations",
          "tool_stats", "status"], some []⟩⟩
        (fun _ => ⟨[], .ok ⟨["status", "outputs", "summary_stats",
          "hallucinations"], some []⟩⟩)
        (fun _ => ⟨(thesisRun ⟨some "./w", some "AAPL", some "2023"⟩ "run-1" "t-1"
            "Thesis_CoT_Agent"
            ["01_company_overview.txt", "02_key_financials.txt", "03_valuation.txt",
             "04_risks.txt", "05_sell_side_summary.txt", "06_competitor_comparison.txt"]
            (.raises "reportlab error") ⟨[], [], []⟩).2.log,
          Except.map ThesisOutput.toDict
            (thesisRun ⟨some "./w", some "AAPL", some "2023"⟩ "run-1" "t-1"
              "Thesis_CoT_Agent"
              ["01_company_overview.txt", "02_key_financials.txt", "03_valuation.txt",
               "04_risks.txt", "05_sell_side_summary.txt", "06_competitor_comparison.txt"]
              (.raises "reportlab error") ⟨[], [], []⟩).1⟩)
        (fun x _ => ⟨[], .ok (.passThrough x)⟩) (fun _ _ => "J")
        ⟨[], [], []⟩).2.log.filter (isPipelineTerminal "run-1") =
      [.pipeline_end "run-1"] := by
  exact ⟨rfl, rfl⟩

/-- C4 amended: an empty section-file map never reaches the source's
"No summary files found, cannot build report." branch — the first
unmatched section calls the nonexistent `event_logger.log_hallucination`
and the stage aborts with `AttributeError` before anything is built; the
propagated exception does fail the Run, but the `pipeline_error` carries
the `AttributeError` message, not the claimed one, and no PDF is
written.  A document build failure, by contrast, is not fatal: the stage
returns a `FAILED` dict and the Run completes with `pipeline_end`. -/
theorem c4_compilation_failure_semantics
    (input : TInput) (runId agentId agent_name : String) (build : BuildBeh)
    (st : PState) (query eAid eName dn cn tn : String) (dk ck : List String)
    (judge : List String → String → String) (st2 : PState) (tmsg : String) :
    thesisRun input runId agentId agent_name [] build st =
      (.error (.attributeError "log_hallucination"),
        { st with log := st.log ++
            [.agent_start runId agentId agent_name,
             .tool_call runId agent_name "list_available_files"] }) ∧
    (pipelineRun runId query eAid eName dn cn tn
        ⟨[], .ok ⟨dk, some []⟩⟩ (fun x => ⟨[], .ok ⟨ck, some []⟩⟩)
        (fun _ => ⟨[], .error (.attributeError "log_hallucination")⟩)
        (fun x s => ⟨[], .ok (.passThrough x)⟩) judge st2).1 =
      .error (.attributeError "log_hallucination") ∧
    Event.pipeline_error runId
        "module 'event_logger' has no attribute 'log_hallucination'"
      ∈ (pipelineRun runId query eAid eName dn cn tn
        ⟨[], .ok ⟨dk, some []⟩⟩ (fun x => ⟨[], .ok ⟨ck, some []⟩⟩)
        (fun _ => ⟨[], .error (.attributeError "log_hallucination")⟩)
        (fun x s => ⟨[], .ok (.passThrough x)⟩) judge st2).2.log ∧
    (pipelineRun runId query eAid eName dn cn tn
        ⟨[], .ok ⟨dk, some []⟩⟩ (fun x => ⟨[], .ok ⟨ck, some []⟩⟩)
        (fun _ => ⟨[], .ok (ThesisOutput.failure tmsg).toDict⟩)
        (fun x s => ⟨[], .ok (.passThrough x)⟩) judge st2).1 =
      .ok (ThesisOutput.failure tmsg).toDict ∧
    Event.pipeline_end runId
      ∈ (pipelineRun runId query eAid eName dn cn tn
        ⟨[], .ok ⟨dk, some []⟩⟩ (fun x => ⟨[], .ok ⟨ck, some []⟩⟩)
        (fun _ => ⟨[], .ok (ThesisOutput.failure tmsg).toDict⟩)
        (fun x s => ⟨[], .ok (.passThrough x)⟩) judge st2).2.log := by
  refine ⟨?_, rfl, ?_, rfl, ?_⟩
  · simp [thesisRun, thesisSectionLoop, SECTION_TO_FILENAME, log_hallucination]
  · exact List.mem_append_right _ (List.mem_singleton_self _)
  · exact List.mem_append_right _ (List.mem_singleton_self _)

/-- Helper: every normally-completed manifest entry appends exactly one
path to `validated_files` — all fault branches of `processEntry` end in
the raising `log_hallucination_metric` call and cannot return. -/
theorem processEntry_ok
    (runId agent_name ticker fyear report_date work_dir : String)
    (e : OutputSpec) (acc acc' : LoopAcc) (st st' : PState)
    (h : processEntry runId agent_name ticker fyear report_date work_dir e acc st =
      (.ok acc', st')) :
    acc'.validated_files.length = acc.validated_files.length + 1 := by
  simp only [processEntry, toolExceptHandler, log_hallucination_metric] at h
  repeat' split at h
  all_goals simp at h
  all_goals
    (obtain ⟨h1, h2⟩ := h
     subst h1
     simp)

/-- Helper: a normally-completed manifest loop appends one validated
path per entry. -/
theorem dataLoop_ok
    (runId agent_name ticker fyear report_date work_dir : String) :
    ∀ (entries : List OutputSpec) (acc acc' : LoopAcc) (st st' : PState),
      dataLoop runId agent_name ticker fyear report_date work_dir entries acc st =
        (.ok acc', st') →
      acc'.validated_files.length = acc.validated_files.length + entries.length := by
  intro entries
  induction entries with
  | nil =>
    intro acc acc' st st' h
    simp only [dataLoop] at h
    simp_all
  | cons e rest ih =>
    intro acc acc' st st' h
    simp only [dataLoop] at h
    split at h
    · simp_all
    · rename_i acc₁ st₁ heq
      have h1 := processEntry_ok runId agent_name ticker fyear report_date work_dir
        e acc acc₁ st st₁ heq
      have h2 := ih acc₁ acc' st₁ st' h
      simp only [List.length_cons]
      omega

/-- Helper: any `DataOutput` returned by `dataRun` has every manifest
entry validated and hence status `"TERMINATE"`. -/
theorem dataRun_ok (input : DInput) (runId agentId agent_name : String)
    (outputs : List OutputSpec) (judge : List String → String → String)
    (st : PState) (dout : DataOutput)
    (h : (dataRun input runId agentId agent_name outputs judge st).1 = .ok dout) :
    dout.status = "TERMINATE" ∧ dout.validated_files.length = outputs.length := by
  simp only [dataRun] at h
  split at h
  · simp_all
  · rename_i acc st₁ heq
    have hlen := dataLoop_ok _ _ _ _ _ _ _ _ _ _ _ heq
    simp only [List.length_nil, Nat.zero_add] at hlen
    simp only at h
    rw [Except.ok.injEq] at h
    subst h
    simp [hlen]

/-- Helper: a normally-completed requirement loop of
`ConceptCoTAgent.run` leaves the `missing` flag unchanged and appends
one content chunk per requirement — both fault branches end in the
raising `log_hallucination_metric` call and cannot return. -/
theorem conceptReqLoop_ok (runId agent_name work_dir : String) (env : ConceptEnv) :
    ∀ (reqs chunks : List String) (missing : Bool) (halls : List String)
      (st : PState) (chunks' : List String) (missing' : Bool)
      (halls' : List String) (st' : PState),
      conceptReqLoop runId agent_name work_dir env reqs chunks missing halls st =
        (.ok (chunks', missing', halls'), st') →
      missing' = missing ∧ chunks'.length = chunks.length + reqs.length := by
  intro reqs
  induction reqs with
  | nil =>
    intro chunks missing halls st chunks' missing' halls' st' h
    simp only [conceptReqLoop] at h
    simp at h
    obtain ⟨⟨h1, h2, h3⟩, h4⟩ := h
    subst h1; subst h2
    simp
  | cons req rest ih =>
    intro chunks missing halls st chunks' missing' halls' st' h
    simp only [conceptReqLoop, log_hallucination_metric] at h
    repeat' split at h
    · have := ih _ _ _ _ _ _ _ _ h
      simp_all
      omega
    · simp at h
    · simp at h
    · simp at h

/-- Helper: a normally-completed output loop of `ConceptCoTAgent.run`
(over entries whose requirement lists are nonempty, as all of
`conceptOUTPUTS` are) leaves the `missing` counter unchanged and appends
one result key per entry. -/
theorem conceptOutLoop_ok (runId agent_name work_dir : String) (env : ConceptEnv) :
    ∀ (entries : List (String × List String)),
      (∀ p ∈ entries, p.2 ≠ []) →
      ∀ (results : List String) (missingCt genCt : Nat) (halls : List String)
        (st : PState) (results' : List String) (missingCt' genCt' : Nat)
        (halls' : List String) (st' : PState),
      conceptOutLoop runId agent_name work_dir env entries results missingCt genCt
          halls st = (.ok (results', missingCt', genCt', halls'), st') →
      missingCt' = missingCt ∧ results'.length = results.length + entries.length := by
  intro entries
  induction entries with
  | nil =>
    intro _ results missingCt genCt halls st results' missingCt' genCt' halls' st' h
    simp only [conceptOutLoop] at h
    simp at h
    obtain ⟨⟨h1, h2, h3, h4⟩, h5⟩ := h
    subst h1; subst h2
    simp
  | cons p rest ih =>
    rcases p with ⟨output_name, req_files⟩
    intro hne results missingCt genCt halls st results' missingCt' genCt' halls' st' h
    simp only [conceptOutLoop] at h
    split at h
    · simp at h
    · rename_i chunks missing halls₁ st₁ heq
      obtain ⟨hm, hlen⟩ := conceptReqLoop_ok runId agent_name work_dir env
        req_files [] false halls st chunks missing halls₁ st₁ heq
      subst hm
      have hreq : req_files ≠ [] := hne (output_name, req_files) (by simp)
      have hch : chunks.isEmpty = false := by
        cases hc : chunks with
        | nil =>
          subst hc
          simp at hlen
          exact absurd (List.length_eq_zero.mp hlen.symm) hreq
        | cons a t => rfl
      rw [hch] at h
      simp only [Bool.false_or, Bool.or_false, if_neg Bool.false_ne_true] at h
      split at h <;>
      · have hrec := ih (fun q hq => hne q (by simp [hq])) _ _ _ _ _ _ _ _ _ _ h
        refine ⟨hrec.1, ?_⟩
        have h2 := hrec.2
        simp only [List.length_append, List.length_cons, List.length_nil] at h2 ⊢
        omega

/-- Helper: any `ConceptOutput` returned by `ConceptCoTAgent.run` has a
zero `missing` counter, all six result keys, and status `"TERMINATE"`
(the status tracks only the `missing` counter — not whether the summary
files were actually written). -/
theorem conceptRun_ok (work_dir? runId? : Option String) (agent_name : String)
    (env : ConceptEnv) (judge : List String → String → String) (st : PState)
    (cout : ConceptOutput)
    (h : (conceptRun work_dir? runId? agent_name env judge st).1 = .ok cout) :
    cout.status = "TERMINATE" ∧ cout.summary_missing = 0 ∧
      cout.outputs.length = conceptOUTPUTS.length := by
  simp only [conceptRun] at h
  repeat' split at h
  all_goals simp at h
  all_goals rename_i heq hmc hhe
  all_goals obtain ⟨hm0, hlen⟩ :=
    conceptOutLoop_ok _ _ _ _ conceptOUTPUTS (by decide) _ _ _ _ _ _ _ _ _ _ heq
  all_goals
    first
      | exact absurd hm0 hmc
      | (subst h
         refine ⟨rfl, hm0, ?_⟩
         simpa using hlen)

set_option maxRecDepth 100000 in
set_option maxHeartbeats 1000000 in
/-- C2 counterexample: the status invariant fails for
`ConceptCoTAgent.run`.  With every source file present and valid but
every `save_to_file` call failing (concept_agent.py lines 105-107 catch
the exception, append a hallucination, and fall through), the stage
returns status `"TERMINATE"` although zero files were created against
the six-entry `OUTPUTS` manifest: the status tracks only
`summary_stats["missing"]`, not the files actually written. -/
theorem c2_counterexample :
    (conceptRun (some "./w") (some "run-1") "Concept_CoT_Agent"
        ⟨["01_income_statement.txt", "02_balance_sheet.txt", "03_cash_flow.txt",
          "04_risk_analysis.txt", "05_competitor_analysis.txt",
          "06_business_highlights.txt", "07_company_description.txt"],
          (fun _ => some (joinWith " " (List.replicate 150 "w"))),
          (fun _ _ => none), (fun _ => false)⟩
        (fun _ _ => "J") ⟨[], [], []⟩).1 =
      .ok (ConceptOutput.mk "TERMINATE"
        ["01_company_overview.txt", "02_key_financials.txt", "03_valuation.txt",
         "04_risks.txt", "05_sell_side_summary.txt", "06_competitor_comparison.txt"]
        0 6
        ["Failed to save: ./w/01_company_overview.txt",
         "Failed to save: ./w/02_key_financials.txt",
         "Failed to save: ./w/03_valuation.txt",
         "Failed to save: ./w/04_risks.txt",
         "Failed to save: ./w/05_sell_side_summary.txt",
         "Failed to save: ./w/06_competitor_comparison.txt"]) ∧
    (conceptRun (some "./w") (some "run-1") "Concept_CoT_Agent"
        ⟨["01_income_statement.txt", "02_balance_sheet.txt", "03_cash_flow.txt",
          "04_risk_analysis.txt", "05_competitor_analysis.txt",
          "06_business_highlights.txt", "07_company_description.txt"],
          (fun _ => some (joinWith " " (List.replicate 150 "w"))),
          (fun _ _ => none), (fun _ => false)⟩
        (fun _ _ => "J") ⟨[], [], []⟩).2.fs = [] ∧
    conceptOUTPUTS.length = 6 := by
  exact ⟨rfl, rfl, rfl⟩

/-- C2 amended: for `DataCoTAgentUS.run` the claim holds as stated —
status is `"TERMINATE"` iff `len(validated_files)` equals the manifest
length.  For `ConceptCoTAgent.run` the status tracks only the `missing`
counter: status is `"TERMINATE"` iff `summary_stats["missing"] == 0`, a
condition on source-content availability and not on files created (a
failed `save_to_file` leaves status `"TERMINATE"` with fewer files than
the manifest, per the counterexample).  For `ThesisCoTAgent.run` status
is `"TERMINATE"` iff its single created file, the compiled PDF, was
produced (the single-build manifest). -/
theorem c2_status_invariant
    (input : DInput) (runId agentId agent_name : String) (outputs : List OutputSpec)
    (judge cjudge : List String → String → String) (st cst : PState)
    (wd? rid? : Option String) (cname : String) (env : ConceptEnv)
    (dout : DataOutput) (cout : ConceptOutput)
    (hd : (dataRun input runId agentId agent_name outputs judge st).1 = .ok dout)
    (hc : (conceptRun wd? rid? cname env cjudge cst).1 = .ok cout) :
    (dout.status = "TERMINATE" ↔ dout.validated_files.length = outputs.length) ∧
    (cout.status = "TERMINATE" ↔ cout.summary_missing = 0) ∧
    (∀ tout : ThesisOutput, tout.status = "TERMINATE" ↔
      tout.created_files.length = thesisManifest.length) := by
  obtain ⟨hds, hdl⟩ := dataRun_ok input runId agentId agent_name outputs judge st dout hd
  obtain ⟨hcs, hcm, hcl⟩ := conceptRun_ok wd? rid? cname env cjudge cst cout hc
  refine ⟨iff_of_true hds hdl, iff_of_true hcs hcm, fun tout => ?_⟩
  cases tout with
  | success pdf secs halls bs =>
    exact iff_of_true rfl rfl
  | failure msg =>
    exact iff_of_false (by simp [ThesisOutput.status]) (by simp [ThesisOutput.created_files, thesisManifest])

set_option maxRecDepth 100000 in
set_option maxHeartbeats 1000000 in
/-- Witness for C2: a concrete one-entry Data manifest whose tool writes
a valid file, and a concrete Analysis environment in which all seven
source files exist with 150-word contents — both stages return, and the
biconditionals hold at their outputs. -/
theorem c2_status_invariant_witness :
    ((DataOutput.mk ["./w/f.txt"] [] [] [⟨"tool_f", "./w/f.txt", true⟩]
        "TERMINATE").status = "TERMINATE" ↔
      (DataOutput.mk ["./w/f.txt"] [] [] [⟨"tool_f", "./w/f.txt", true⟩]
        "TERMINATE").validated_files.length =
        [OutputSpec.mk "F" "tool_f" (fun _ => .ret (some 100)) "f.txt" .txt].length) ∧
    ((ConceptOutput.mk "TERMINATE"
        ["01_company_overview.txt", "02_key_financials.txt", "03_valuation.txt",
         "04_risks.txt", "05_sell_side_summary.txt", "06_competitor_comparison.txt"]
        0 6 []).status = "TERMINATE" ↔
      (ConceptOutput.mk "TERMINATE"
        ["01_company_overview.txt", "02_key_financials.txt", "03_valuation.txt",
         "04_risks.txt", "05_sell_side_summary.txt", "06_competitor_comparison.txt"]
        0 6 []).summary_missing = 0) ∧
    (∀ tout : ThesisOutput, tout.status = "TERMINATE" ↔
      tout.created_files.length = thesisManifest.length) :=
  c2_status_invariant ⟨some "AAPL", some "2023", some "./w"⟩ "run-1" "agent-1"
    "Data_CoT_Agent_US" [OutputSpec.mk "F" "tool_f" (fun _ => .ret (some 100)) "f.txt" .txt]
    (fun _ _ => "J") (fun _ _ => "J") ⟨[], [], []⟩ ⟨[], [], []⟩
    (some "./w") (some "run-1") "Concept_CoT_Agent"
    ⟨["01_income_statement.txt", "02_balance_sheet.txt", "03_cash_flow.txt",
      "04_risk_analysis.txt", "05_competitor_analysis.txt",
      "06_business_highlights.txt", "07_company_description.txt"],
      (fun _ => some (joinWith " " (List.replicate 150 "w"))),
      (fun _ _ => none), (fun _ => true)⟩
    (DataOutput.mk ["./w/f.txt"] [] [] [⟨"tool_f", "./w/f.txt", true⟩] "TERMINATE")
    (ConceptOutput.mk "TERMINATE"
      ["01_company_overview.txt", "02_key_financials.txt", "03_valuation.txt",
       "04_risks.txt", "05_sell_side_summary.txt", "06_competitor_comparison.txt"]
      0 6 [])
    (by rfl) (by rfl)

end FinRobot
